import Mathlib

/-!
Verification of the libav.js WebCodecs polyfill against its natural-language
specification.  The definitions below are shallow embeddings of the
TypeScript sources: each definition's doc comment names the source function
it translates.  Machine numbers are modelled as `Int`/`Nat`/`Rat`; fallible
code returns `Except ErrKind`.
-/

namespace WCPoly

/-- Error classifications thrown by the polyfill (DOMException names and
JS error classes appearing in the sources). -/
inductive ErrKind
  | typeError
  | invalidState
  | rangeError
  | notSupported
  | encodingError
  | dataClone
deriving DecidableEq, Repr

/-- Codec lifecycle state, `misc.CodecState` / the `state` field of the four
codec classes ("unconfigured" / "configured" / "closed"). -/
inductive CodecState
  | unconfigured
  | configured
  | closed
deriving DecidableEq, Repr

/-- The lifecycle-relevant fields shared by `AudioDecoder`, `AudioEncoder`,
`VideoDecoder` and `VideoEncoder` (src/src/audio-encoder.ts,
src/src/video-encoder.ts, src/rollup.config.mjs AudioDecoder,
src/src/video-decoder.ts): the `state` field and the
`encodeQueueSize`/`decodeQueueSize` counter. -/
structure Codec where
  state : CodecState
  queueSize : Nat
deriving DecidableEq, Repr

/-- `_resetAudioEncoder` / `_resetVideoEncoder` / `_resetAudioDecoder` /
`_resetVideoDecoder`: throws InvalidStateError when the state is "closed",
otherwise sets the state to "unconfigured" (and queues a backend free,
which has no effect on the modelled fields). -/
def resetAlgorithm (c : Codec) : Except ErrKind Codec :=
  if c.state = CodecState.closed then .error .invalidState
  else .ok { c with state := CodecState.unconfigured }

/-- `_closeAudioEncoder` / `_closeVideoEncoder` / `_closeAudioDecoder` /
`_closeVideoDecoder`: first runs the reset algorithm (whose
InvalidStateError propagates), then sets the state to "closed". -/
def closeAlgorithm (c : Codec) : Except ErrKind Codec :=
  match resetAlgorithm c with
  | .error e => .error e
  | .ok c1 => .ok { c1 with state := CodecState.closed }

/-- `close()` on each codec class: runs the close algorithm with an
AbortError exception (the exception kind does not affect the modelled
fields). -/
def closeOp (c : Codec) : Except ErrKind Codec := closeAlgorithm c

/-- `reset()` on each codec class: runs the reset algorithm. -/
def resetOp (c : Codec) : Except ErrKind Codec := resetAlgorithm c

/-- The synchronous part of `configure(config)` on each codec class: throws
InvalidStateError when closed, otherwise sets the state to "configured"
(the queued control message is not part of the synchronous lifecycle
fields). -/
def configureSync (c : Codec) : Except ErrKind Codec :=
  if c.state = CodecState.closed then .error .invalidState
  else .ok { c with state := CodecState.configured }

/-- The synchronous part of `encode(data)` on `AudioEncoder`/`VideoEncoder`:
throws TypeError when the input is detached, throws InvalidStateError when
the state is not "configured", otherwise increments the queue-size counter
and queues the control message. -/
def encodeSync (detached : Bool) (c : Codec) : Except ErrKind Codec :=
  if detached then .error .typeError
  else if c.state ≠ CodecState.configured then .error .invalidState
  else .ok { c with queueSize := c.queueSize + 1 }

/-- The synchronous part of `decode(chunk)` on the decoders: throws
InvalidStateError when the state is not "configured", otherwise increments
the queue-size counter and queues the control message. -/
def decodeSync (c : Codec) : Except ErrKind Codec :=
  if c.state ≠ CodecState.configured then .error .invalidState
  else .ok { c with queueSize := c.queueSize + 1 }

/-- The synchronous part of `flush()`: throws InvalidStateError when the
state is not "configured". -/
def flushSync (c : Codec) : Except ErrKind Unit :=
  if c.state ≠ CodecState.configured then .error .invalidState
  else .ok ()

/-- Observable actions performed by a queued decode/encode control step, in
the order the step's body performs them. -/
inductive StepEv
  | decrement
  | dequeueEvent
  | backendAwait
  | outputChunk (k : Nat)
  | scheduleClose
deriving DecidableEq, Repr

/-- Outcome of the awaited backend coding call (`ff_encode_multi` /
`ff_decode_multi`): success with some number of emitted packets/frames, or
a thrown error. -/
inductive BackendOutcome
  | success (numOutputs : Nat)
  | failure
deriving DecidableEq, Repr

/-- The queued control step of `AudioEncoder.encode`, `VideoEncoder.encode`
(src/src/video-encoder.ts, DequeueEventTarget version) and
`AudioDecoder.decode` (src/rollup.config.mjs).  All three bodies share this
shape: first decrement the queue-size counter and dispatch one "dequeue"
event, then await the backend coding call inside try/catch; on success
deliver each output through the output callback, on failure queue a close
step and deliver nothing. -/
def codingStep (c : Codec) (o : BackendOutcome) : Codec × List StepEv :=
  let c1 := { c with queueSize := c.queueSize - 1 }
  match o with
  | .success n =>
      (c1, [StepEv.decrement, StepEv.dequeueEvent, StepEv.backendAwait] ++
        (List.range n).map StepEv.outputChunk)
  | .failure =>
      (c1, [StepEv.decrement, StepEv.dequeueEvent, StepEv.backendAwait,
        StepEv.scheduleClose])

/-- `AudioSampleFormat` (src/src/video-encoder.ts, AudioData section):
tagged variant over the W3C identifiers "u8", "s16", "s32", "f32",
"u8-planar", "s16-planar", "s32-planar", "f32-planar". -/
inductive AudioSampleFormat
  | u8
  | s16
  | s32
  | f32
  | u8planar
  | s16planar
  | s32planar
  | f32planar
deriving DecidableEq, Repr

/-- `isInterleaved(format)` from the AudioData module. -/
def isInterleaved : AudioSampleFormat → Bool
  | .u8 | .s16 | .s32 | .f32 => true
  | .u8planar | .s16planar | .s32planar | .f32planar => false

/-- `bytesPerSample(format)` from the AudioData module. -/
def bytesPerSample : AudioSampleFormat → Nat
  | .u8 | .u8planar => 1
  | .s16 | .s16planar => 2
  | .s32 | .s32planar | .f32 | .f32planar => 4

/-- The `AudioData` object: its attribute fields and its sample buffer
`_data`.  The buffer is modelled as the list of sample values (rationals,
standing for the JS numbers read through the typed-array view in the
AudioData's own format); `none` models the detached state after
`close()`. -/
structure AudioData where
  format : AudioSampleFormat
  sampleRate : ℚ
  numberOfFrames : Nat
  numberOfChannels : Nat
  timestamp : ℤ
  data : Option (List ℚ)
deriving DecidableEq, Repr

/-- `AudioDataInit`: the constructor argument record.  `transfer` records
whether init.transfer names the data's backing buffer. -/
structure AudioDataInit where
  format : AudioSampleFormat
  sampleRate : ℚ
  numberOfFrames : Nat
  numberOfChannels : Nat
  timestamp : ℤ
  data : List ℚ
  transfer : Bool
deriving DecidableEq, Repr

/-- `AudioData._checkValidAudioDataInit`: sampleRate, numberOfFrames,
numberOfChannels must be positive and the data must hold at least
numberOfFrames × numberOfChannels samples (the byte comparison
`dataSize < totalSize` divided through by the format's bytes-per-sample). -/
def checkValidAudioDataInit (init : AudioDataInit) : Except ErrKind Unit :=
  if init.sampleRate ≤ 0 then .error .typeError
  else if init.numberOfFrames = 0 then .error .typeError
  else if init.numberOfChannels = 0 then .error .typeError
  else if init.data.length < init.numberOfFrames * init.numberOfChannels then
    .error .typeError
  else .ok ()

/-- The `AudioData` constructor (src/src/video-encoder.ts, AudioData
section): validate the init, then take the sample data (moved when
transferred, copied otherwise — either way the same sample values) and the
attribute fields. -/
def AudioData.construct (init : AudioDataInit) : Except ErrKind AudioData :=
  match checkValidAudioDataInit init with
  | .error e => .error e
  | .ok () =>
      .ok { format := init.format
            sampleRate := init.sampleRate
            numberOfFrames := init.numberOfFrames
            numberOfChannels := init.numberOfChannels
            timestamp := init.timestamp
            data := some init.data }

/-- `AudioData.duration`: derived as numberOfFrames / sampleRate × 1e6
microseconds. -/
def AudioData.duration (a : AudioData) : ℚ :=
  (a.numberOfFrames : ℚ) / a.sampleRate * 1000000

/-- `AudioData.clone`: throws InvalidStateError when detached, otherwise
re-runs the constructor on the same attribute fields and sample data
(without a transfer list, so the data is copied). -/
def AudioData.clone (a : AudioData) : Except ErrKind AudioData :=
  match a.data with
  | none => .error .invalidState
  | some d =>
      AudioData.construct
        { format := a.format
          sampleRate := a.sampleRate
          numberOfFrames := a.numberOfFrames
          numberOfChannels := a.numberOfChannels
          timestamp := a.timestamp
          data := d
          transfer := false }

/-- `AudioData.close`: detaches the sample buffer. -/
def AudioData.close (a : AudioData) : AudioData :=
  { a with data := none }

/-- `AudioDataCopyToOptions`: `frameOffset` and `frameCount` model the
optional dictionary members (`"frameCount" in options`), `format` the
optional destination format. -/
structure AudioDataCopyToOptions where
  planeIndex : Nat
  frameOffset : Option Nat
  frameCount : Option Nat
  format : Option AudioSampleFormat
deriving DecidableEq, Repr

/-- `AudioData._computeCopyElementCount` (src/src/video-encoder.ts lines
1625-1690): plane-index validation, conversion legality, frame offset and
frame count validation, and the element count.  Note the source tests
`options.frameCount >= copyFrameCount` where its own step-9 comment (and
the W3C algorithm) says "greater than". -/
def computeCopyElementCount (a : AudioData) (options : AudioDataCopyToOptions) :
    Except ErrKind Nat :=
  let destFormat := options.format.getD a.format
  let isInterleaved_ := isInterleaved destFormat
  if isInterleaved_ ∧ options.planeIndex > 0 then .error .rangeError
  else if ¬ isInterleaved_ ∧ options.planeIndex ≥ a.numberOfChannels then
    .error .rangeError
  else if a.format ≠ destFormat ∧ destFormat ≠ AudioSampleFormat.f32planar then
    .error .notSupported
  else
    let frameCount := a.numberOfFrames
    let frameOffset := options.frameOffset.getD 0
    if frameOffset ≥ frameCount then .error .rangeError
    else
      let copyFrameCount := frameCount - frameOffset
      match options.frameCount with
      | some fc =>
          if fc ≥ copyFrameCount then .error .rangeError
          else .ok (if isInterleaved_ then fc * a.numberOfChannels else fc)
      | none =>
          .ok (if isInterleaved_ then copyFrameCount * a.numberOfChannels
               else copyFrameCount)

/-- The (sub, div) pair of `AudioData.copyTo`'s conversion branch: sub = 0,
div = 1 by default; (0x80, 0x80) for u8 formats, (0, 0x8000) for s16,
(0, 0x80000000) for s32. -/
def subDiv : AudioSampleFormat → ℚ × ℚ
  | .u8 | .u8planar => (128, 128)
  | .s16 | .s16planar => (0, 32768)
  | .s32 | .s32planar => (0, 2147483648)
  | .f32 | .f32planar => (0, 1)

/-- `AudioData.copyTo` (src/src/video-encoder.ts lines 1692-1792), returning
the sequence of sample values written to the destination.  `planeFrames`
is `_data.subarray(planeIndex * numberOfFrames)`.  In the same-format
branch the written values are a subarray of planeFrames; in the conversion
branch each written value is `(planeFrames[i] - sub) / div` with `i`
starting at `planeIndex + frameOffset * numberOfChannels` and striding by
`numberOfChannels` for an interleaved source, or starting at `frameOffset`
and striding by 1 for a planar source.  A read past the end of planeFrames
yields JS `undefined` (so the written value is NaN), modelled as `none`. -/
def AudioData.copyToWritten (a : AudioData) (destByteLength : Nat)
    (options : AudioDataCopyToOptions) : Except ErrKind (List (Option ℚ)) :=
  match a.data with
  | none => .error .invalidState
  | some d =>
      match computeCopyElementCount a options with
      | .error e => .error e
      | .ok copyElementCount =>
          let destFormat := options.format.getD a.format
          if bytesPerSample destFormat * copyElementCount > destByteLength then
            .error .rangeError
          else
            let planeFrames := d.drop (options.planeIndex * a.numberOfFrames)
            let frameOffset := (options.frameOffset.getD 0)
            let numberOfChannels := a.numberOfChannels
            if a.format = destFormat then
              if isInterleaved destFormat then
                .ok (((planeFrames.drop (frameOffset * numberOfChannels)).take
                        copyElementCount).map some)
              else
                .ok (((planeFrames.drop frameOffset).take copyElementCount).map
                        some)
            else
              let sub := (subDiv a.format).1
              let div := (subDiv a.format).2
              if isInterleaved a.format then
                .ok ((List.range copyElementCount).map fun o =>
                  (planeFrames.get? (options.planeIndex +
                      frameOffset * numberOfChannels + o * numberOfChannels)).map
                    fun s => (s - sub) / div)
              else
                .ok ((List.range copyElementCount).map fun o =>
                  (planeFrames.get? (frameOffset + o)).map
                    fun s => (s - sub) / div)

/-- The conversion that claim C7 describes, stated in the claim's own terms
(for comparison with `AudioData.copyToWritten`): destination sample o is
`(source[i] - sub) / div` where for an interleaved source
`i = planeIndex + frameOffset * numberOfChannels + o * numberOfChannels`
indexes the AudioData's sample data itself, and for a planar source
`i = frameOffset + o` indexes the plane (channel) region. -/
def claimConvertedSamples (d : List ℚ) (srcFormat : AudioSampleFormat)
    (numberOfFrames numberOfChannels planeIndex frameOffset count : Nat) :
    List (Option ℚ) :=
  let sub := (subDiv srcFormat).1
  let div := (subDiv srcFormat).2
  if isInterleaved srcFormat then
    (List.range count).map fun o =>
      (d.get? (planeIndex + frameOffset * numberOfChannels +
          o * numberOfChannels)).map fun s => (s - sub) / div
  else
    (List.range count).map fun o =>
      ((d.drop (planeIndex * numberOfFrames)).get? (frameOffset + o)).map
        fun s => (s - sub) / div

/-- A libav frame as seen by `AudioEncoder._filter`: its pts (JS
number-or-undefined, modelled as `Option Int`; units of the output sample
rate) and its `nb_samples` sample count. -/
structure FFrame where
  pts : Option ℤ
  nb_samples : ℤ
deriving DecidableEq, Repr

/-- The pts-relabelling loop of `AudioEncoder._filter` (src/src/audio-encoder.ts
lines 420-424): each frame emerging from the filter gets
`frame.pts = this._pts` and then `this._pts += frame.nb_samples`.  When the
cursor is still null, JS assigns null to the frame's pts and `null + n`
coerces null to 0, hence the `Option.getD 0` at the addition. -/
def assignPtsLoop : Option ℤ → List FFrame → List FFrame × Option ℤ
  | c, [] => ([], c)
  | c, f :: fs =>
      let c1 : Option ℤ := some (c.getD 0 + f.nb_samples)
      let (rest, cf) := assignPtsLoop c1 fs
      ({ f with pts := c } :: rest, cf)

/-- `AudioEncoder._filter(frames, fin)` (src/src/audio-encoder.ts lines
407-426), with the backend's `ff_filter_multi` result supplied as the
parameter `rawOut`: when the pts cursor is still null and the input frame
list is nonempty, the cursor is initialised to `frames[0].pts || 0`; then
every emerging frame is relabelled by `assignPtsLoop`.  Returns the
relabelled frames and the threaded cursor. -/
def filterStep (pts : Option ℤ) (frames rawOut : List FFrame) :
    List FFrame × Option ℤ :=
  let pts1 := if frames.length ≠ 0 ∧ pts = none
              then some ((frames.headD { pts := none, nb_samples := 0 }).pts.getD 0)
              else pts
  assignPtsLoop pts1 rawOut

/-- A sequence of `_filter` calls threading the `_pts` cursor, as performed
by successive `encode`/`flush` steps.  Each call supplies its input frames
and the raw frames the backend filter emitted; the concatenation of all
relabelled outputs is returned together with the final cursor. -/
def filterRun (pts : Option ℤ) :
    List (List FFrame × List FFrame) → List FFrame × Option ℤ
  | [] => ([], pts)
  | (fr, raw) :: rest =>
      let (out1, pts1) := filterStep pts fr raw
      let (out2, pts2) := filterRun pts1 rest
      (out1 ++ out2, pts2)

/-- The chained-pts property: the first frame carries pts c, and each
subsequent frame carries the previous frame's pts plus the previous
frame's sample count. -/
def ptsChainB : ℤ → List FFrame → Bool
  | _, [] => true
  | c, g :: gs => (g.pts == some c) && ptsChainB (c + g.nb_samples) gs

/-- Sum of the `nb_samples` fields of a frame list. -/
def sumSamples (l : List FFrame) : ℤ := (l.map FFrame.nb_samples).sum

theorem sumSamples_cons (f : FFrame) (fs : List FFrame) :
    sumSamples (f :: fs) = f.nb_samples + sumSamples fs := by
  simp [sumSamples]

theorem sumSamples_append (l1 l2 : List FFrame) :
    sumSamples (l1 ++ l2) = sumSamples l1 + sumSamples l2 := by
  simp [sumSamples]

theorem assignPtsLoop_nb (c : Option ℤ) (raw : List FFrame) :
    (assignPtsLoop c raw).1.map FFrame.nb_samples = raw.map FFrame.nb_samples := by
  induction raw generalizing c with
  | nil => simp [assignPtsLoop]
  | cons f fs ih => simp [assignPtsLoop, ih]

theorem assignPtsLoop_sum (c : Option ℤ) (raw : List FFrame) :
    sumSamples (assignPtsLoop c raw).1 = sumSamples raw := by
  simp [sumSamples, assignPtsLoop_nb]

theorem assignPtsLoop_some (c : ℤ) (raw : List FFrame) :
    (assignPtsLoop (some c) raw).2 = some (c + sumSamples raw) ∧
      ptsChainB c (assignPtsLoop (some c) raw).1 = true := by
  induction raw generalizing c with
  | nil => simp [assignPtsLoop, sumSamples, ptsChainB]
  | cons f fs ih =>
      have h := ih (c + f.nb_samples)
      constructor
      · show (assignPtsLoop (some (c + f.nb_samples)) fs).2 = _
        rw [h.1, sumSamples_cons]
        congr 1
        ring
      · show ptsChainB c ({ f with pts := some c } ::
            (assignPtsLoop (some (c + f.nb_samples)) fs).1) = true
        simp [ptsChainB]
        exact h.2

theorem ptsChainB_append (c : ℤ) (l1 l2 : List FFrame)
    (h1 : ptsChainB c l1 = true) (h2 : ptsChainB (c + sumSamples l1) l2 = true) :
    ptsChainB c (l1 ++ l2) = true := by
  induction l1 generalizing c with
  | nil =>
      simpa [sumSamples] using h2
  | cons g gs ih =>
      simp [ptsChainB] at h1 ⊢
      refine ⟨h1.1, ih _ h1.2 ?_⟩
      rw [sumSamples_cons] at h2
      have he : c + g.nb_samples + sumSamples gs =
          c + (g.nb_samples + sumSamples gs) := by ring
      rwa [he]

theorem filterRun_some (c : ℤ) (calls : List (List FFrame × List FFrame)) :
    (filterRun (some c) calls).2 =
        some (c + sumSamples (filterRun (some c) calls).1) ∧
      ptsChainB c (filterRun (some c) calls).1 = true := by
  induction calls generalizing c with
  | nil => simp [filterRun, sumSamples, ptsChainB]
  | cons call rest ih =>
      obtain ⟨fr, raw⟩ := call
      have hstep : filterStep (some c) fr raw = assignPtsLoop (some c) raw := by
        simp [filterStep]
      have h1 := assignPtsLoop_some c raw
      have h2 := ih (c + sumSamples raw)
      have hout : (filterRun (some c) ((fr, raw) :: rest)).1 =
          (assignPtsLoop (some c) raw).1 ++
            (filterRun (some (c + sumSamples raw)) rest).1 := by
        simp [filterRun, hstep, h1.1]
      have hcur : (filterRun (some c) ((fr, raw) :: rest)).2 =
          (filterRun (some (c + sumSamples raw)) rest).2 := by
        simp [filterRun, hstep, h1.1]
      constructor
      · rw [hcur, hout, h2.1, sumSamples_append, assignPtsLoop_sum]
        congr 1
        ring
      · rw [hout]
        apply ptsChainB_append _ _ _ h1.2
        rw [assignPtsLoop_sum]
        exact h2.2

theorem ptsChainB_head (c : ℤ) (l : List FFrame) (hch : ptsChainB c l = true) :
    ∀ g, l.head? = some g → g.pts = some c := by
  cases l with
  | nil => intro g h; simp at h
  | cons x xs =>
      intro g h
      simp at h
      subst h
      rw [ptsChainB] at hch
      simp only [Bool.and_eq_true, beq_iff_eq] at hch
      exact hch.1

theorem ptsChainB_succ (c : ℤ) (l : List FFrame) (hch : ptsChainB c l = true) :
    ∀ i g g', l.get? i = some g → l.get? (i + 1) = some g' →
      g'.pts = some (g.pts.getD 0 + g.nb_samples) := by
  induction l generalizing c with
  | nil => intro i g g' hg _; simp at hg
  | cons x xs ih =>
      rw [ptsChainB] at hch
      simp only [Bool.and_eq_true, beq_iff_eq] at hch
      intro i g g' hg hg'
      cases i with
      | zero =>
          simp at hg
          subst hg
          have hy := ptsChainB_head _ _ hch.2 g'
          rw [hch.1]
          simp only [Option.getD_some]
          apply hy
          cases xs with
          | nil => simp at hg'
          | cons y ys => simpa using hg'
      | succ j =>
          exact ih (c + x.nb_samples) hch.2 j g g' (by simpa using hg)
            (by simpa using hg')

theorem filterRun_none_eq (f : FFrame) (fs raw1 : List FFrame)
    (rest : List (List FFrame × List FFrame)) :
    filterRun none ((f :: fs, raw1) :: rest) =
      filterRun (some (f.pts.getD 0)) ((f :: fs, raw1) :: rest) := by
  simp [filterRun, filterStep]

theorem filterRun_some_raws :
    ∀ (calls1 : List (List FFrame × List FFrame)) (c : ℤ)
      (calls2 : List (List FFrame × List FFrame)),
      calls1.map Prod.snd = calls2.map Prod.snd →
      filterRun (some c) calls1 = filterRun (some c) calls2 := by
  intro calls1
  induction calls1 with
  | nil =>
      intro c calls2 h
      cases calls2 with
      | nil => rfl
      | cons a b => simp at h
  | cons call rest ih =>
      intro c calls2 h
      cases calls2 with
      | nil => simp at h
      | cons call2 rest2 =>
          obtain ⟨fr, raw⟩ := call
          obtain ⟨fr2, raw2⟩ := call2
          simp at h
          obtain ⟨hraw, hrest⟩ := h
          have hstep : filterStep (some c) fr raw = filterStep (some c) fr2 raw2 := by
            rw [← hraw]
            simp [filterStep]
          have hc := (assignPtsLoop_some c raw).1
          have hstep1 : filterStep (some c) fr raw = assignPtsLoop (some c) raw := by
            simp [filterStep]
          have htail : filterRun ((filterStep (some c) fr raw).2) rest =
              filterRun ((filterStep (some c) fr raw).2) rest2 := by
            rw [hstep1, hc]
            exact ih _ rest2 hrest
          simp [filterRun, ← hstep, htail]

/-- The audio encoder's output metadata record
(`EncodedAudioChunkMetadata.decoderConfig` as populated by the encoder):
sample rate and channel count filled from the first frame, and the
optional `description` field (the encoder's extradata side data). -/
structure AEncMeta where
  sampleRate : ℤ
  numberOfChannels : ℤ
  description : Option (List ℕ)
deriving DecidableEq, Repr

/-- The metadata-related fields of `AudioEncoder`:
`_outputMetadata` (set by configure, so modelled as always present) and
`_outputMetadataFilled`. -/
structure AEncMetaState where
  outputMetadata : AEncMeta
  outputMetadataFilled : Bool
deriving DecidableEq, Repr

/-- `AudioEncoder._getOutputMetadata` (src/src/audio-encoder.ts lines
429-444): read the codec context's extradata (null unless the pointer and
size are nonzero, modelled by the `Option` argument), assign the frame's
sample rate and channel count, assign the description when extradata
exists, and set the filled flag. -/
def getOutputMetadata (st : AEncMetaState) (frameSampleRate frameChannels : ℤ)
    (extradata : Option (List ℕ)) : AEncMetaState :=
  { outputMetadata :=
      { sampleRate := frameSampleRate
        numberOfChannels := frameChannels
        description :=
          match extradata with
          | some e => some e
          | none => st.outputMetadata.description }
    outputMetadataFilled := true }

/-- `AudioEncoder._outputEncodedAudioChunks` (src/src/audio-encoder.ts lines
446-478), restricted to the metadata argument of each delivery: each packet
becomes one output-callback invocation, with the metadata record attached
when `_outputMetadataFilled` is set and absent otherwise.  Packets are
identified by an index. -/
def outputEncodedAudioChunks (st : AEncMetaState) (packets : List ℕ) :
    List (ℕ × Option AEncMeta) :=
  packets.map fun p =>
    (p, if st.outputMetadataFilled then some st.outputMetadata else none)

/-- The metadata/delivery portion of the `AudioEncoder.encode` control step
(src/src/audio-encoder.ts lines 374-376 and 400-401): when there are
encoded outputs, the metadata is not yet filled, and this call's filter
produced at least one frame, `_getOutputMetadata` runs first; then the
outputs are delivered. -/
def audioEncodeDeliver (st : AEncMetaState) (encodedOutputs : List ℕ)
    (fframesNonempty : Bool) (frameSampleRate frameChannels : ℤ)
    (extradata : Option (List ℕ)) : AEncMetaState × List (ℕ × Option AEncMeta) :=
  let st1 :=
    if encodedOutputs.length ≠ 0 ∧ st.outputMetadataFilled = false ∧
        fframesNonempty then
      getOutputMetadata st frameSampleRate frameChannels extradata
    else st
  (st1, outputEncodedAudioChunks st1 encodedOutputs)

/-- The video encoder's output metadata record
(`EncodedVideoChunkMetadata.decoderConfig`): the optional description
(extradata). -/
structure VEncMeta where
  description : Option (List ℕ)
deriving DecidableEq, Repr

/-- The metadata-related fields of `VideoEncoder` (DequeueEventTarget
version): `_metadata` (set by configure) and `_extradataSet`. -/
structure VEncMetaState where
  metadata : VEncMeta
  extradataSet : Bool
deriving DecidableEq, Repr

/-- `VideoEncoder._getExtradata` (src/src/video-encoder.ts lines 852-863):
assign the description when the codec context's extradata pointer and size
are nonzero, and set `_extradataSet` regardless. -/
def getExtradata (st : VEncMetaState) (extradata : Option (List ℕ)) :
    VEncMetaState :=
  { metadata :=
      { description :=
          match extradata with
          | some e => some e
          | none => st.metadata.description }
    extradataSet := true }

/-- `VideoEncoder._outputEncodedVideoChunks` (src/src/video-encoder.ts lines
865-886), restricted to the metadata argument: each packet is delivered
with the metadata record when `_extradataSet` holds and without it
otherwise. -/
def outputEncodedVideoChunks (st : VEncMetaState) (packets : List ℕ) :
    List (ℕ × Option VEncMeta) :=
  packets.map fun p =>
    (p, if st.extradataSet then some st.metadata else none)

/-- The metadata/delivery portion of the `VideoEncoder.encode` control step
(src/src/video-encoder.ts lines 822-823 and 846-847): when there are
encoded outputs and `_extradataSet` is still false, `_getExtradata` runs
first; then the outputs are delivered. -/
def videoEncodeDeliver (st : VEncMetaState) (encodedOutputs : List ℕ)
    (extradata : Option (List ℕ)) : VEncMetaState × List (ℕ × Option VEncMeta) :=
  let st1 :=
    if encodedOutputs.length ≠ 0 ∧ st.extradataSet = false then
      getExtradata st extradata
    else st
  (st1, outputEncodedVideoChunks st1 encodedOutputs)

/-- `VideoPixelFormat` (src/src/video-frame.ts): the W3C pixel format
identifiers. -/
inductive VideoPixelFormat
  | I420 | I420P10 | I420P12
  | I420A | I420AP10 | I420AP12
  | I422 | I422P10 | I422P12
  | I422A | I422AP10 | I422AP12
  | I444 | I444P10 | I444P12
  | I444A | I444AP10 | I444AP12
  | NV12
  | RGBA | RGBX | BGRA | BGRX
deriving DecidableEq, Repr

/-- `numPlanes(format)` (src/src/video-frame.ts). -/
def numPlanes : VideoPixelFormat → ℕ
  | .I420 | .I420P10 | .I420P12
  | .I422 | .I422P10 | .I422P12
  | .I444 | .I444P10 | .I444P12 => 3
  | .I420A | .I420AP10 | .I420AP12
  | .I422A | .I422AP10 | .I422AP12
  | .I444A | .I444AP10 | .I444AP12 => 4
  | .NV12 => 2
  | .RGBA | .RGBX | .BGRA | .BGRX => 1

/-- `sampleBytes(format, planeIndex)` (src/src/video-frame.ts). -/
def sampleBytes : VideoPixelFormat → ℕ → ℕ
  | .I420, _ | .I420A, _ | .I422, _ | .I422A, _ | .I444, _ | .I444A, _ => 1
  | .I420P10, _ | .I420AP10, _ | .I422P10, _ | .I422AP10, _
  | .I444P10, _ | .I444AP10, _
  | .I420P12, _ | .I420AP12, _ | .I422P12, _ | .I422AP12, _
  | .I444P12, _ | .I444AP12, _ => 2
  | .NV12, planeIndex => if planeIndex = 1 then 2 else 1
  | .RGBA, _ | .RGBX, _ | .BGRA, _ | .BGRX, _ => 4

/-- `horizontalSubSamplingFactor(format, planeIndex)`
(src/src/video-frame.ts): plane 0 and plane 3 are full; the 4:2:0 and
4:2:2 families and NV12 halve the chroma planes. -/
def horizontalSubSamplingFactor (format : VideoPixelFormat) (planeIndex : ℕ) : ℕ :=
  if planeIndex = 0 then 1
  else if planeIndex = 3 then 1
  else match format with
    | .I420 | .I420P10 | .I420P12 | .I420A | .I420AP10 | .I420AP12
    | .I422 | .I422P10 | .I422P12 | .I422A | .I422AP10 | .I422AP12 => 2
    | .I444 | .I444P10 | .I444P12 | .I444A | .I444AP10 | .I444AP12 => 1
    | .NV12 => 2
    | .RGBA | .RGBX | .BGRA | .BGRX => 1

/-- `verticalSubSamplingFactor(format, planeIndex)`
(src/src/video-frame.ts): plane 0 and plane 3 are full; only the 4:2:0
family and NV12 halve the chroma planes vertically. -/
def verticalSubSamplingFactor (format : VideoPixelFormat) (planeIndex : ℕ) : ℕ :=
  if planeIndex = 0 then 1
  else if planeIndex = 3 then 1
  else match format with
    | .I420 | .I420P10 | .I420P12 | .I420A | .I420AP10 | .I420AP12 => 2
    | .I422 | .I422P10 | .I422P12 | .I422A | .I422AP10 | .I422AP12
    | .I444 | .I444P10 | .I444P12 | .I444A | .I444AP10 | .I444AP12 => 1
    | .NV12 => 2
    | .RGBA | .RGBX | .BGRA | .BGRX => 1

/-- A DOMRect with x, y, width, height. -/
structure JSRect where
  x : ℤ
  y : ℤ
  width : ℤ
  height : ℤ
deriving DecidableEq, Repr

/-- `PlaneLayout`: per-plane byte offset and stride. -/
structure PlaneLayout where
  offset : ℤ
  stride : ℤ
deriving DecidableEq, Repr

/-- JS `~~(a / b)`: division truncated toward zero. -/
def truncDiv (a b : ℤ) : ℤ := Int.tdiv a b

/-- JS `Math.ceil(a / b)` for exact integer operands, b > 0. -/
def ceilDiv (a b : ℤ) : ℤ := -(Int.fdiv (-a) b)

/-- JS truthiness of an optional numeric field (`undefined` and `0` are
falsy). -/
def truthyInt : Option ℤ → Bool
  | none => false
  | some n => n ≠ 0

/-- `VideoFrameBufferInit` (src/src/video-frame.ts): the buffer-constructor
init record.  `transfer` records whether init.transfer names the data's
backing buffer. -/
structure VideoFrameBufferInit where
  format : VideoPixelFormat
  codedWidth : ℤ
  codedHeight : ℤ
  timestamp : ℤ
  duration : Option ℤ
  layout : Option (List PlaneLayout)
  visibleRect : Option JSRect
  displayWidth : Option ℤ
  displayHeight : Option ℤ
  transfer : Bool
deriving DecidableEq, Repr

/-- `VideoFrame._checkValidVideoFrameBufferInit` (src/src/video-frame.ts
lines 483-518).  Faithful to the source: the coded dimensions must be
nonzero (JS truthiness); all further checks — including the
display-dimension checks of steps 5 and 6 — run only when a visibleRect is
supplied, and the display check throws when displayWidth is truthy while
displayHeight is not, when NEITHER is truthy, or when either equals 0. -/
def checkValidVideoFrameBufferInit (init : VideoFrameBufferInit) :
    Except ErrKind Unit :=
  if init.codedWidth = 0 ∨ init.codedHeight = 0 then .error .typeError
  else
    match init.visibleRect with
    | none => .ok ()
    | some vr =>
        if vr.x < 0 ∨ vr.y < 0 ∨ vr.width < 0 ∨ vr.height < 0 then
          .error .typeError
        else if vr.y + vr.height > init.codedHeight then .error .typeError
        else if vr.x + vr.width > init.codedWidth then .error .typeError
        else if (truthyInt init.displayWidth ∧ ¬ truthyInt init.displayHeight) ∨
            (¬ truthyInt init.displayWidth ∧ ¬ truthyInt init.displayHeight) ∨
            (init.displayWidth = some 0 ∨ init.displayHeight = some 0) then
          .error .typeError
        else .ok ()

/-- `VideoFrame._verifyRectOffsetAlignment` (src/src/video-frame.ts lines
792-832): rect.x must be a multiple of each plane's horizontal
sub-sampling factor and rect.y of each vertical factor. -/
def verifyRectOffsetAlignment (format : VideoPixelFormat) (rect : JSRect) :
    Bool :=
  (List.range (numPlanes format)).all fun i =>
    rect.x % (horizontalSubSamplingFactor format i : ℤ) = 0 ∧
      rect.y % (verticalSubSamplingFactor format i : ℤ) = 0

/-- `VideoFrame._parseVisibleRect` (src/src/video-frame.ts lines 590-627):
validate an override rect against the coded dimensions, then verify the
offset alignment of the chosen source rect. -/
def parseVisibleRect (format : VideoPixelFormat) (codedWidth codedHeight : ℤ)
    (defaultRect : JSRect) (overrideRect : Option JSRect) :
    Except ErrKind JSRect :=
  let checked : Except ErrKind JSRect :=
    match overrideRect with
    | none => .ok defaultRect
    | some o =>
        if o.width = 0 ∨ o.height = 0 then .error .typeError
        else if o.x + o.width > codedWidth then .error .typeError
        else if o.y + o.height > codedHeight then .error .typeError
        else .ok o
  match checked with
  | .error e => .error e
  | .ok sourceRect =>
      if verifyRectOffsetAlignment format sourceRect then .ok sourceRect
      else .error .typeError

/-- A computed plane layout (src/src/video-frame.ts, Compute Layout and
Allocation Size). -/
structure ComputedPlaneLayout where
  destinationOffset : ℤ
  destinationStride : ℤ
  sourceTop : ℤ
  sourceHeight : ℤ
  sourceLeftBytes : ℤ
  sourceWidthBytes : ℤ
deriving DecidableEq, Repr

/-- The per-plane loop of `VideoFrame._computeLayoutAndAllocationSize`
(src/src/video-frame.ts lines 652-776): computes each plane's source
region from the parsed rect and the plane's sub-sampling, takes the
destination offset/stride from the caller layout (checking the stride) or
tight-packs at the running minimum allocation size, bounds-checks the
plane against 2^32, and rejects overlap with every earlier plane.  The
accumulator holds each earlier plane's computed layout with its end
offset. -/
def computeLayoutAux (fmt : VideoPixelFormat) (rect : JSRect)
    (optLayout : Option (List PlaneLayout)) :
    List ℕ → ℤ → List (ComputedPlaneLayout × ℤ) →
      Except ErrKind (List ComputedPlaneLayout × ℤ)
  | [], minAlloc, acc => .ok (acc.map Prod.fst, minAlloc)
  | i :: is, minAlloc, acc =>
      let sb := (sampleBytes fmt i : ℤ)
      let sw := (horizontalSubSamplingFactor fmt i : ℤ)
      let sh := (verticalSubSamplingFactor fmt i : ℤ)
      let sourceTop := ceilDiv rect.y sh
      let sourceHeight := ceilDiv rect.height sh
      let sourceLeftBytes := truncDiv (rect.x * sb) sw
      let sourceWidthBytes := truncDiv (rect.width * sb) sw
      let dst : Except ErrKind (ℤ × ℤ) :=
        match optLayout with
        | some layout =>
            let pl := layout.getD i { offset := 0, stride := 0 }
            if pl.stride < sourceWidthBytes then .error .typeError
            else .ok (pl.offset, pl.stride)
        | none => .ok (minAlloc, sourceWidthBytes)
      match dst with
      | .error e => .error e
      | .ok (dstOff, dstStride) =>
          let planeSize := dstStride * sourceHeight
          let planeEnd := planeSize + dstOff
          if planeSize ≥ 4294967296 ∨ planeEnd ≥ 4294967296 then
            .error .typeError
          else
            let minAlloc1 := max minAlloc planeEnd
            if acc.all (fun pe =>
                planeEnd ≤ pe.1.destinationOffset ∨ pe.2 ≤ dstOff) then
              computeLayoutAux fmt rect optLayout is minAlloc1
                (acc ++ [({ destinationOffset := dstOff
                            destinationStride := dstStride
                            sourceTop := sourceTop
                            sourceHeight := sourceHeight
                            sourceLeftBytes := sourceLeftBytes
                            sourceWidthBytes := sourceWidthBytes }, planeEnd)])
            else .error .typeError

/-- `VideoFrame._computeLayoutAndAllocationSize` (src/src/video-frame.ts
lines 629-790): when a caller layout is supplied its length must equal the
plane count; then the per-plane loop yields the computed layouts and the
minimum allocation size. -/
def computeLayoutAndAllocationSize (fmt : VideoPixelFormat) (rect : JSRect)
    (optLayout : Option (List PlaneLayout)) :
    Except ErrKind (List ComputedPlaneLayout × ℤ) :=
  match optLayout with
  | some layout =>
      if layout.length ≠ numPlanes fmt then .error .typeError
      else computeLayoutAux fmt rect optLayout (List.range (numPlanes fmt)) 0 []
  | none => computeLayoutAux fmt rect optLayout (List.range (numPlanes fmt)) 0 []

/-- The default tight-packed plane layout the constructor computes when
init.layout is absent (src/src/video-frame.ts lines 261-273): stride
`~~(codedWidth / hssf)` per plane, offsets accumulated by
`stride * ~~(codedHeight / vssf)`. -/
def defaultLayoutFrom (fmt : VideoPixelFormat) (cw ch : ℤ) :
    List ℕ → ℤ → List PlaneLayout
  | [], _ => []
  | i :: is, offset =>
      let stride := truncDiv cw (horizontalSubSamplingFactor fmt i : ℤ)
      { offset := offset, stride := stride } ::
        defaultLayoutFrom fmt cw ch is
          (offset + stride * truncDiv ch (verticalSubSamplingFactor fmt i : ℤ))

/-- Entry point for `defaultLayoutFrom` over all planes. -/
def defaultLayout (fmt : VideoPixelFormat) (cw ch : ℤ) : List PlaneLayout :=
  defaultLayoutFrom fmt cw ch (List.range (numPlanes fmt)) 0

/-- The slice bounds the constructor computes for a non-transferred buffer
(src/src/video-frame.ts lines 283-296): the least plane offset (the
source's `lo` starts at Infinity, modelled by 2^53) and the greatest plane
end `offset + stride * ~~(codedHeight / vssf)`. -/
def sliceBounds (fmt : VideoPixelFormat) (ch : ℤ) (layout : List PlaneLayout) :
    ℤ × ℤ :=
  let idxs := List.range (numPlanes fmt)
  let lo := idxs.foldl
    (fun lo i => min lo (layout.getD i { offset := 0, stride := 0 }).offset)
    9007199254740992
  let hi := idxs.foldl
    (fun hi i =>
      let pl := layout.getD i { offset := 0, stride := 0 }
      max hi (pl.offset +
        pl.stride * truncDiv ch (verticalSubSamplingFactor fmt i : ℤ)))
    0
  (lo, hi)

/-- The `VideoFrame` object: attribute fields, plane layout `_layout`,
pixel buffer `_data` (byte list), and the non-square-pixel data. -/
structure VideoFrame where
  format : VideoPixelFormat
  codedWidth : ℤ
  codedHeight : ℤ
  codedRect : JSRect
  visibleRect : JSRect
  displayWidth : ℤ
  displayHeight : ℤ
  timestamp : ℤ
  duration : Option ℤ
  layout : List PlaneLayout
  data : List ℤ
  nonSquarePixels : Bool
  sar_num : ℤ
  sar_den : ℤ
deriving DecidableEq, Repr

/-- `VideoFrame._constructBuffer` (src/src/video-frame.ts lines 158-403):
validate the init, parse the visible rect, compute the combined layout,
check the buffer size, take the caller layout or the tight-packed default,
slice the buffer to the plane-covering region when not transferred
(rebasing offsets), then populate codedRect, visibleRect (the init's, else
the coded rect), display dimensions (the init's, else the visible ones)
and the non-square-pixel fields. -/
def constructBuffer (data : List ℤ) (init : VideoFrameBufferInit) :
    Except ErrKind VideoFrame :=
  match checkValidVideoFrameBufferInit init with
  | .error e => .error e
  | .ok () =>
  let defaultRect : JSRect :=
    { x := 0, y := 0, width := init.codedWidth, height := init.codedHeight }
  match parseVisibleRect init.format init.codedWidth init.codedHeight
      defaultRect init.visibleRect with
  | .error e => .error e
  | .ok _parsedRect =>
  match computeLayoutAndAllocationSize init.format _parsedRect init.layout with
  | .error e => .error e
  | .ok combined =>
  if (data.length : ℤ) < combined.2 then .error .typeError
  else
    let layout0 :=
      match init.layout with
      | some l => l
      | none => defaultLayout init.format init.codedWidth init.codedHeight
    let kept :=
      if init.transfer then (layout0, data)
      else
        let b := sliceBounds init.format init.codedHeight layout0
        let layout1 :=
          if b.1 ≠ 0 then
            layout0.map fun x => { offset := x.offset - b.1, stride := x.stride }
          else layout0
        (layout1, (data.drop b.1.toNat).take (b.2 - b.1).toNat)
    let visibleRect :=
      match init.visibleRect with
      | some vr => vr
      | none =>
          { x := 0, y := 0, width := init.codedWidth, height := init.codedHeight }
    let displayWidth :=
      match init.displayWidth with
      | some w => w
      | none => visibleRect.width
    let displayHeight :=
      match init.displayHeight with
      | some h => h
      | none => visibleRect.height
    let nonSquare :=
      ¬ (displayWidth = visibleRect.width ∧ displayHeight = visibleRect.height)
    .ok { format := init.format
          codedWidth := init.codedWidth
          codedHeight := init.codedHeight
          codedRect :=
            { x := 0, y := 0, width := init.codedWidth, height := init.codedHeight }
          visibleRect := visibleRect
          displayWidth := displayWidth
          displayHeight := displayHeight
          timestamp := init.timestamp
          duration := init.duration
          layout := kept.1
          data := kept.2
          nonSquarePixels := decide nonSquare
          sar_num := if nonSquare then displayWidth * visibleRect.width else 1
          sar_den := if nonSquare then displayHeight * visibleRect.height else 1 }

/-- `VideoFrame.clone` (src/src/video-frame.ts lines 950-960): re-run the
buffer constructor on the frame's own data with its format, coded
dimensions, timestamp, duration and layout, transferring the buffer.  The
init passes no visibleRect, displayWidth or displayHeight. -/
def VideoFrame.clone (f : VideoFrame) : Except ErrKind VideoFrame :=
  constructBuffer f.data
    { format := f.format
      codedWidth := f.codedWidth
      codedHeight := f.codedHeight
      timestamp := f.timestamp
      duration := f.duration
      layout := some f.layout
      visibleRect := none
      displayWidth := none
      displayHeight := none
      transfer := true }

/-- `codec.replace(/\..*/, "")`: the identifier up to the first dot. -/
def stripSub (s : String) : String := String.mk (s.data.takeWhile (· ≠ '.'))

/-- `codec.split(".")`, structurally: split the character list at dots. -/
def splitOnDotAux : List Char → List Char → List String
  | [], acc => [String.mk acc.reverse]
  | c :: cs, acc =>
      if c = '.' then String.mk acc.reverse :: splitOnDotAux cs []
      else splitOnDotAux cs (c :: acc)

/-- `codec.split(".")`. -/
def splitOnDot (s : String) : List String := splitOnDotAux s.data []

/-- JS numeric coercion `+s` of a codec sub-parameter: the non-negative
integer numerals the codec strings carry; anything else coerces to NaN,
modelled as `none`. -/
def jsNum (s : String) : Option ℤ :=
  if s.data ≠ [] ∧ s.data.all (·.isDigit) then
    some (s.data.foldl (fun n c => n * 10 + ((c.toNat : ℤ) - 48)) 0)
  else none

/-- JS `+s[i]`: numeric coercion of one character of a sub-parameter;
`none` models NaN (including the out-of-range `undefined` case). -/
def charNum (s : String) (i : ℕ) : Option ℤ :=
  match s.data.get? i with
  | some ch => if ch.isDigit then some ((ch.toNat : ℤ) - 48) else none
  | none => none

/-- The switch statement of `decoder(codec, config)` (src/unnamed/part_006
lines 125-196), projected to the `codec` field of the eventual record;
`none` models the `null` ("not supported") result and `hasDescription`
whether `config.description` is defined. -/
def decoderSwitch (c : String) (hasDescription : Bool) :
    Except ErrKind (Option String) :=
  if c = "flac" then
    if ¬ hasDescription then .ok none else .ok (some "flac")
  else if c = "opus" then
    if hasDescription then .ok none else .ok (some "libopus")
  else if c = "vorbis" then
    if ¬ hasDescription then .ok none else .ok (some "libvorbis")
  else if c = "av01" then .ok (some "libaom-av1")
  else if c = "vp09" then .ok (some "libvpx-vp9")
  else if c = "vp8" then .ok (some "libvpx")
  else if c = "mp3" ∨ c = "mp4a" ∨ c = "ulaw" ∨ c = "alaw" ∨
      c = "avc1" ∨ c = "avc3" ∨ c = "hev1" ∨ c = "hvc1" then .ok none
  else .error .typeError

/-- The remainder of `decoder`: after the switch, a mapped codec is
reported as supported only when it appears in the loaded `decoders`
list. -/
def decoderMap (decs : List String) (codec : String) (hasDescription : Bool) :
    Except ErrKind (Option String) :=
  let c := stripSub codec
  match decoderSwitch c hasDescription with
  | .error e => .error e
  | .ok none => .ok none
  | .ok (some outCodec) =>
      if decs.contains c then .ok (some outCodec) else .ok none

/-- The `flac` member of `AudioEncoderConfig`. -/
structure FlacOpts where
  blockSize : Option ℤ
  compressLevel : Option ℤ
deriving DecidableEq, Repr

/-- The `opus` member of `AudioEncoderConfig`. -/
structure OpusOpts where
  frameDuration : Option ℤ
  complexity : Option ℤ
  packetlossperc : Option ℤ
  useinbandfec : Option Bool
  usedtx : Option Bool
  format : Option String
deriving DecidableEq, Repr

/-- The parts of the encoder configuration that decide the
supported/unsupported outcome of `encoder(codec, config)`. -/
structure EncoderConfig where
  flac : Option FlacOpts
  opus : Option OpusOpts
deriving DecidableEq, Repr

/-- `av1Advanced(codecParts, ctx)` (src/unnamed/part_006 lines 379-468),
projected to its supported/unsupported result (`false` = valid but
unsupported); the ctx fields it populates are not modelled.  Note the
source reads `codecParts[3]` for the bit depth although it is gated on
`codecParts[4]`. -/
def av1Advanced (parts : List String) : Except ErrKind Bool :=
  let p1 := parts.getD 1 ""
  let profileStep : Except ErrKind Unit :=
    if p1 ≠ "" then
      match jsNum p1 with
      | some pr => if 0 ≤ pr ∧ pr ≤ 2 then .ok () else .error .typeError
      | none => .error .typeError
    else .ok ()
  match profileStep with
  | .error e => .error e
  | .ok () =>
  let p2 := parts.getD 2 ""
  let levelStep : Except ErrKind (Option ℤ) :=
    if p2 ≠ "" then
      match jsNum p2 with
      | some lv => if 0 ≤ lv ∧ lv ≤ 23 then .ok (some lv) else .error .typeError
      | none => .error .typeError
    else .ok none
  match levelStep with
  | .error e => .error e
  | .ok level =>
  let p3 := parts.getD 3 ""
  let tierStep : Except ErrKind Bool :=
    if p3 ≠ "" then
      if p3 = "M" then .ok true
      else if p3 = "H" then
        match level with
        | some lv => if 8 ≤ lv then .ok false else .error .typeError
        | none => .error .typeError
      else .error .typeError
    else .ok true
  match tierStep with
  | .error e => .error e
  | .ok false => .ok false
  | .ok true =>
  let p4 := parts.getD 4 ""
  let depthStep : Except ErrKind Bool :=
    if p4 ≠ "" then
      match jsNum p3 with
      | some d =>
          if d = 10 ∨ d = 12 then .ok false
          else if d ≠ 8 then .error .typeError
          else .ok true
      | none => .error .typeError
    else .ok true
  match depthStep with
  | .error e => .error e
  | .ok false => .ok false
  | .ok true =>
  let p5 := parts.getD 5 ""
  let monoStep : Except ErrKind Bool :=
    if p5 ≠ "" then
      if p5 = "0" then .ok true
      else if p5 = "1" then .ok false
      else .error .typeError
    else .ok true
  match monoStep with
  | .error e => .error e
  | .ok false => .ok false
  | .ok true =>
  let p6 := parts.getD 6 ""
  if p6 ≠ "" then
    if p6 = "000" ∨ p6 = "100" ∨ p6 = "110" then .ok true
    else if p6 = "111" then .ok false
    else .error .typeError
  else .ok true

/-- `vp9Advanced(codecParts, ctx)` (src/unnamed/part_006 lines 475-539),
projected to its supported/unsupported result. -/
def vp9Advanced (parts : List String) : Except ErrKind Bool :=
  let p1 := parts.getD 1 ""
  let profileStep : Except ErrKind Unit :=
    if p1 ≠ "" then
      match jsNum p1 with
      | some pr => if 0 ≤ pr ∧ pr ≤ 3 then .ok () else .error .typeError
      | none => .error .typeError
    else .ok ()
  match profileStep with
  | .error e => .error e
  | .ok () =>
  let p2 := parts.getD 2 ""
  let levelStep : Except ErrKind Unit :=
    if p2 ≠ "" then
      let l0 := charNum p2 0
      let l1 := charNum p2 1
      if (match l0 with | some v => decide (1 ≤ v ∧ v ≤ 4) | none => false) then
        if (match l1 with | some v => decide (0 ≤ v ∧ v ≤ 1) | none => false) then
          .ok ()
        else .error .typeError
      else if (match l0 with | some v => decide (5 ≤ v ∧ v ≤ 6) | none => false) then
        if (match l1 with | some v => decide (0 ≤ v ∧ v ≤ 2) | none => false) then
          .ok ()
        else .error .typeError
      else .error .typeError
    else .ok ()
  match levelStep with
  | .error e => .error e
  | .ok () =>
  let p3 := parts.getD 3 ""
  let depthStep : Except ErrKind Bool :=
    if p3 ≠ "" then
      match jsNum p3 with
      | some d =>
          if d = 10 ∨ d = 12 then .ok false
          else if d ≠ 8 then .error .typeError
          else .ok true
      | none => .error .typeError
    else .ok true
  match depthStep with
  | .error e => .error e
  | .ok false => .ok false
  | .ok true =>
  let p4 := parts.getD 4 ""
  if p4 ≠ "" then
    match jsNum p4 with
    | some m =>
        if m = 0 ∨ m = 1 ∨ m = 2 ∨ m = 3 then .ok true else .error .typeError
    | none => .error .typeError
  else .ok true

/-- The switch statement of `encoder(codec, config)` (src/unnamed/part_006
lines 202-372), projected to the `codec` field of the eventual record;
`none` models the `null` ("not supported") result.  The ctx and options
records the source also builds are not modelled, as no claim concerns
them. -/
def encoderSwitch (parts : List String) (cfg : EncoderConfig) :
    Except ErrKind (Option String) :=
  let c := parts.headD ""
  if c = "flac" then
    match cfg.flac with
    | some f =>
        if f.compressLevel.isSome then .ok none else .ok (some "flac")
    | none => .ok (some "flac")
  else if c = "opus" then
    match cfg.opus with
    | none => .ok (some "libopus")
    | some o =>
        if o.complexity.isSome then .ok none
        else if (match o.packetlossperc with
                 | some p => decide (p < 0 ∨ p > 100)
                 | none => false) then .ok none
        else if o.usedtx.isSome then .ok none
        else if (match o.format with
                 | some f => decide (f ≠ "opus")
                 | none => false) then .ok none
        else .ok (some "libopus")
  else if c = "vorbis" then .ok (some "libvorbis")
  else if c = "av01" then
    match av1Advanced parts with
    | .error e => .error e
    | .ok false => .ok none
    | .ok true => .ok (some "libaom-av1")
  else if c = "vp09" then
    match vp9Advanced parts with
    | .error e => .error e
    | .ok false => .ok none
    | .ok true => .ok (some "libvpx-vp9")
  else if c = "vp8" then .ok (some "libvpx")
  else if c = "mp3" ∨ c = "mp4a" ∨ c = "ulaw" ∨ c = "alaw" ∨ c = "avc1" then
    .ok none
  else .error .typeError

/-- The remainder of `encoder`: after the switch, a mapped codec is
reported as supported only when it appears in the loaded `encoders`
list. -/
def encoderMap (encs : List String) (codec : String) (cfg : EncoderConfig) :
    Except ErrKind (Option String) :=
  let parts := splitOnDot codec
  let c := parts.headD ""
  match encoderSwitch parts cfg with
  | .error e => .error e
  | .ok none => .ok none
  | .ok (some outCodec) =>
      if encs.contains c then .ok (some outCodec) else .ok none

/-- Claim C1: for every call to `decode` or `encode` made while the codec
instance is Configured, the corresponding queue-size counter increases by
exactly one synchronously before the call returns; and when the queued
control step for that call runs, the counter decreases by exactly one and
exactly one dequeue event is dispatched, regardless of whether the backend
coding work succeeds or fails. -/
theorem c1_queue_counter_dequeue (c : Codec)
    (h : c.state = CodecState.configured) (o : BackendOutcome) :
    encodeSync false c = .ok { c with queueSize := c.queueSize + 1 } ∧
    decodeSync c = .ok { c with queueSize := c.queueSize + 1 } ∧
    (codingStep { c with queueSize := c.queueSize + 1 } o).1.queueSize =
      c.queueSize ∧
    (codingStep { c with queueSize := c.queueSize + 1 } o).2.count
      StepEv.dequeueEvent = 1 := by
  refine ⟨?_, ?_, ?_, ?_⟩
  · simp [encodeSync, h]
  · simp [decodeSync, h]
  · cases o <;> simp [codingStep]
  · cases o with
    | success n =>
        simp [codingStep, List.count_append, List.count_cons]
        rw [List.count_eq_zero]
        simp
    | failure => simp [codingStep, List.count_cons]

/-- Witness for C1 at a concrete Configured codec with a two-packet
backend success. -/
theorem c1_queue_counter_dequeue_witness :
    encodeSync false { state := CodecState.configured, queueSize := 0 } =
      .ok { state := CodecState.configured, queueSize := 1 } ∧
    (codingStep { state := CodecState.configured, queueSize := 1 }
        (BackendOutcome.success 2)).1.queueSize = 0 ∧
    (codingStep { state := CodecState.configured, queueSize := 1 }
        (BackendOutcome.success 2)).2.count StepEv.dequeueEvent = 1 := by
  have h := c1_queue_counter_dequeue
    { state := CodecState.configured, queueSize := 0 } rfl
    (BackendOutcome.success 2)
  exact ⟨h.1, h.2.2.1, h.2.2.2⟩

/-- Claim C2 counterexample: `close()` is not idempotent.  A first close on
a fresh instance succeeds into Closed, but a second close on the
already-Closed instance throws InvalidStateError (because the close
algorithm first runs the reset algorithm, which throws when the state is
"closed") instead of succeeding as a no-op. -/
theorem c2_counterexample :
    closeOp { state := CodecState.unconfigured, queueSize := 0 } =
      .ok { state := CodecState.closed, queueSize := 0 } ∧
    closeOp { state := CodecState.closed, queueSize := 0 } =
      .error ErrKind.invalidState := by
  exact ⟨rfl, rfl⟩

/-- Claim C2 (amended): `close()` from any state other than Closed
transitions the state to Closed; but a second `close()` on an
already-Closed instance throws InvalidStateError rather than succeeding as
a no-op, and every other API call (configure, encode/decode, flush, reset)
on a Closed instance also fails with InvalidState. -/
theorem c2_close_lifecycle (c : Codec) :
    (c.state ≠ CodecState.closed →
      closeOp c = .ok { c with state := CodecState.closed }) ∧
    (c.state = CodecState.closed →
      closeOp c = .error ErrKind.invalidState ∧
      configureSync c = .error ErrKind.invalidState ∧
      encodeSync false c = .error ErrKind.invalidState ∧
      decodeSync c = .error ErrKind.invalidState ∧
      flushSync c = .error ErrKind.invalidState ∧
      resetOp c = .error ErrKind.invalidState) := by
  constructor
  · intro h
    simp [closeOp, closeAlgorithm, resetAlgorithm, h]
  · intro h
    refine ⟨?_, ?_, ?_, ?_, ?_, ?_⟩ <;>
      simp [closeOp, closeAlgorithm, resetAlgorithm, configureSync,
        encodeSync, decodeSync, flushSync, resetOp, h]

/-- Witness for C2 (amended) at concrete instances. -/
theorem c2_close_lifecycle_witness :
    closeOp { state := CodecState.configured, queueSize := 3 } =
      .ok { state := CodecState.closed, queueSize := 3 } ∧
    closeOp { state := CodecState.closed, queueSize := 0 } =
      .error ErrKind.invalidState := by
  have h1 := (c2_close_lifecycle
    { state := CodecState.configured, queueSize := 3 }).1 (by decide)
  have h2 := (c2_close_lifecycle
    { state := CodecState.closed, queueSize := 0 }).2 rfl
  exact ⟨h1, h2.1⟩

/-- Claim C10: within each decode/encode control step, the queue-size
decrement and the dequeue dispatch happen at the start of the step, before
the backend coding work; consequently the dequeue event precedes every
output callback invocation of the same step, and after the decrement the
counter already reads the decremented value (zero when this was the last
queued item) while the backend work is still to run. -/
theorem c10_dequeue_before_outputs (c : Codec) (o : BackendOutcome) :
    (codingStep c o).2.take 3 =
      [StepEv.decrement, StepEv.dequeueEvent, StepEv.backendAwait] ∧
    (codingStep c o).1.queueSize = c.queueSize - 1 ∧
    (∀ i k, (codingStep c o).2.get? i = some (StepEv.outputChunk k) → 3 ≤ i) := by
  refine ⟨?_, ?_, ?_⟩
  · cases o <;> simp [codingStep]
  · cases o <;> simp [codingStep]
  · intro i k hg
    by_contra hlt
    push_neg at hlt
    interval_cases i <;> cases o <;> simp [codingStep] at hg

/-- Witness for C10 at a concrete step whose backend emits two packets:
the first output sits at index 3, after the dequeue event at index 1. -/
theorem c10_dequeue_before_outputs_witness :
    (codingStep { state := CodecState.configured, queueSize := 1 }
        (BackendOutcome.success 2)).2.take 3 =
      [StepEv.decrement, StepEv.dequeueEvent, StepEv.backendAwait] ∧
    (codingStep { state := CodecState.configured, queueSize := 1 }
        (BackendOutcome.success 2)).1.queueSize = 0 ∧
    3 ≤ 3 := by
  have h := c10_dequeue_before_outputs
    { state := CodecState.configured, queueSize := 1 }
    (BackendOutcome.success 2)
  exact ⟨h.1, h.2.1, h.2.2 3 0 (by decide)⟩

/-- Claim C5, code evaluated at the failing input: with numberOfFrames = 4
and frameOffset = 0, the exact-fit frameCount = 4 (= numberOfFrames −
frameOffset) is rejected with a RangeError by the Compute Copy Element
Count algorithm, because the source tests `frameCount >= copyFrameCount`
where its own step-9 comment (and the claim) say "greater than"; the
strictly smaller frameCount = 3 is accepted. -/
theorem c5_exact_fit_rejected :
    computeCopyElementCount
      { format := AudioSampleFormat.f32, sampleRate := 48000,
        numberOfFrames := 4, numberOfChannels := 1, timestamp := 0,
        data := some [0, 0, 0, 0] }
      { planeIndex := 0, frameOffset := some 0, frameCount := some 4,
        format := some AudioSampleFormat.f32 } = .error ErrKind.rangeError ∧
    computeCopyElementCount
      { format := AudioSampleFormat.f32, sampleRate := 48000,
        numberOfFrames := 4, numberOfChannels := 1, timestamp := 0,
        data := some [0, 0, 0, 0] }
      { planeIndex := 0, frameOffset := some 0, frameCount := some 3,
        format := some AudioSampleFormat.f32 } = .ok 3 := by
  exact ⟨rfl, rfl⟩

/-- Claim C6, code evaluated at the failing input: constructing a
VideoFrame with a visibleRect but with neither displayWidth nor
displayHeight throws a TypeError from
`_checkValidVideoFrameBufferInit`, although the source's own step-5/6
comments (and the claim) say only a one-sided display pair is invalid and
absent display dimensions default to the visible dimensions. -/
theorem c6_display_defaults_rejected :
    checkValidVideoFrameBufferInit
      { format := VideoPixelFormat.I420, codedWidth := 2, codedHeight := 2,
        timestamp := 0, duration := none, layout := none,
        visibleRect := some { x := 0, y := 0, width := 2, height := 2 },
        displayWidth := none, displayHeight := none, transfer := false } =
      .error ErrKind.typeError ∧
    constructBuffer [0, 0, 0, 0, 0, 0]
      { format := VideoPixelFormat.I420, codedWidth := 2, codedHeight := 2,
        timestamp := 0, duration := none, layout := none,
        visibleRect := some { x := 0, y := 0, width := 2, height := 2 },
        displayWidth := none, displayHeight := none, transfer := false } =
      .error ErrKind.typeError := by
  exact ⟨rfl, rfl⟩

/-- Claim C7, code evaluated at the failing input: converting a u8
interleaved AudioData (2 frames × 2 channels, samples [128, 144, 160,
176]) to f32-planar with planeIndex = 1 makes the source read the plane
region `_data.subarray(planeIndex * numberOfFrames)` = [160, 176] and then
index it at `planeIndex + frameOffset·channels + o·channels`, producing
[(176−128)/128, NaN] (the second read is out of range, modelled as
`none`); the claim's formula — reading the source data at
`planeIndex + frameOffset·channels + o·channels` with stride channels —
gives [(144−128)/128, (176−128)/128], the channel-1 samples. -/
theorem c7_interleaved_conversion_eval :
    AudioData.copyToWritten
      { format := AudioSampleFormat.u8, sampleRate := 48000,
        numberOfFrames := 2, numberOfChannels := 2, timestamp := 0,
        data := some [128, 144, 160, 176] } 64
      { planeIndex := 1, frameOffset := some 0, frameCount := none,
        format := some AudioSampleFormat.f32planar } =
      .ok [some ((176 - 128) / 128), none] ∧
    claimConvertedSamples [128, 144, 160, 176] AudioSampleFormat.u8 2 2 1 0 2 =
      [some ((144 - 128) / 128), some ((176 - 128) / 128)] ∧
    AudioData.copyToWritten
      { format := AudioSampleFormat.u8, sampleRate := 48000,
        numberOfFrames := 2, numberOfChannels := 2, timestamp := 0,
        data := some [128, 144, 160, 176] } 64
      { planeIndex := 0, frameOffset := some 0, frameCount := none,
        format := some AudioSampleFormat.f32planar } =
      .ok ((claimConvertedSamples [128, 144, 160, 176] AudioSampleFormat.u8
        2 2 0 0 2)) := by
  exact ⟨rfl, rfl, rfl⟩

/-- Claim C3 counterexample: one audio encode step whose backend emits two
packets (with a nonempty filter output and extradata [9, 9]) delivers the
metadata record on BOTH chunks: the second chunk of the same configuration
epoch is not delivered with the metadata argument absent. -/
theorem c3_counterexample :
    (audioEncodeDeliver
      { outputMetadata :=
          { sampleRate := 0, numberOfChannels := 0, description := none },
        outputMetadataFilled := false }
      [0, 1] true 48000 2 (some [9, 9])).2 =
      [(0, some { sampleRate := 48000, numberOfChannels := 2,
                  description := some [9, 9] }),
       (1, some { sampleRate := 48000, numberOfChannels := 2,
                  description := some [9, 9] })] := by
  rfl

/-- Claim C3 (amended): in a step that produces at least one packet while
the metadata is unfilled (with at least one filter-output frame for
audio), the metadata record — whose description is populated from the
encoder's extradata when that side data exists — is attached to the first
chunk AND to every other chunk of the step; and once the metadata is
filled, every chunk of every later step in the same configuration epoch is
also delivered with the same metadata record, never with the metadata
argument absent. -/
theorem c3_metadata_on_all_chunks (st : AEncMetaState) (outs : List ℕ)
    (r ch : ℤ) (e : Option (List ℕ)) (fns : Bool)
    (vst : VEncMetaState) (vouts : List ℕ) (ve : Option (List ℕ)) :
    (st.outputMetadataFilled = false → outs ≠ [] →
      (audioEncodeDeliver st outs true r ch e).2 =
        outs.map (fun p =>
          (p, some (getOutputMetadata st r ch e).outputMetadata)) ∧
      (∀ eb, e = some eb →
        (getOutputMetadata st r ch e).outputMetadata.description = some eb)) ∧
    (st.outputMetadataFilled = true →
      (audioEncodeDeliver st outs fns r ch e).2 =
        outs.map (fun p => (p, some st.outputMetadata))) ∧
    (vst.extradataSet = false → vouts ≠ [] →
      (videoEncodeDeliver vst vouts ve).2 =
        vouts.map (fun p => (p, some (getExtradata vst ve).metadata)) ∧
      (∀ eb, ve = some eb →
        (getExtradata vst ve).metadata.description = some eb)) ∧
    (vst.extradataSet = true →
      (videoEncodeDeliver vst vouts ve).2 =
        vouts.map (fun p => (p, some vst.metadata))) := by
  refine ⟨?_, ?_, ?_, ?_⟩
  · intro hf ho
    constructor
    · simp [audioEncodeDeliver, outputEncodedAudioChunks, hf, ho,
        getOutputMetadata]
    · intro eb heb
      simp [getOutputMetadata, heb]
  · intro hf
    simp [audioEncodeDeliver, outputEncodedAudioChunks, hf]
  · intro hf ho
    constructor
    · simp [videoEncodeDeliver, outputEncodedVideoChunks, hf, ho,
        getExtradata]
    · intro eb heb
      simp [getExtradata, heb]
  · intro hf
    simp [videoEncodeDeliver, outputEncodedVideoChunks, hf]

/-- Witness for C3 (amended) at a concrete unfilled state and a two-packet
step. -/
theorem c3_metadata_on_all_chunks_witness :
    (audioEncodeDeliver
      { outputMetadata :=
          { sampleRate := 0, numberOfChannels := 0, description := none },
        outputMetadataFilled := false }
      [0, 1] true 48000 2 (some [9, 9])).2 =
      [0, 1].map (fun p =>
        (p, some (getOutputMetadata
          { outputMetadata :=
              { sampleRate := 0, numberOfChannels := 0, description := none },
            outputMetadataFilled := false }
          48000 2 (some [9, 9])).outputMetadata)) := by
  have h := c3_metadata_on_all_chunks
    { outputMetadata :=
        { sampleRate := 0, numberOfChannels := 0, description := none },
      outputMetadataFilled := false }
    [0, 1] 48000 2 (some [9, 9]) true
    { metadata := { description := none }, extradataSet := false }
    [] none
  exact (h.1 rfl (by simp)).1

/-- A concrete valid VideoFrameBufferInit with a custom visibleRect (2×2
inside the 4×4 coded grid) and display dimensions 2×2. -/
def c4SrcInit : VideoFrameBufferInit :=
  { format := VideoPixelFormat.I420, codedWidth := 4, codedHeight := 4,
    timestamp := 7, duration := some 10, layout := none,
    visibleRect := some { x := 0, y := 0, width := 2, height := 2 },
    displayWidth := some 2, displayHeight := some 2, transfer := false }

/-- A 24-byte buffer (full I420 4×4 allocation). -/
def c4SrcData : List ℤ := List.replicate 24 0

/-- Claim C4 counterexample: cloning a VideoFrame whose visibleRect is
(0,0,2,2) and whose display size is 2×2 yields a frame whose visibleRect
is the coded rect (0,0,4,4) and whose display size is 4×4 — `clone` passes
neither visibleRect nor displayWidth/displayHeight to the constructor, so
these fields are not preserved. -/
theorem c4_counterexample :
    (constructBuffer c4SrcData c4SrcInit).map
        (fun f => (f.displayWidth, f.displayHeight, f.visibleRect)) =
      .ok (2, 2, { x := 0, y := 0, width := 2, height := 2 }) ∧
    ((constructBuffer c4SrcData c4SrcInit).bind VideoFrame.clone).map
        (fun f => (f.displayWidth, f.displayHeight, f.visibleRect)) =
      .ok (4, 4, { x := 0, y := 0, width := 4, height := 4 }) := by
  exact ⟨rfl, rfl⟩

/-- Claim C4 (amended): `AudioData.clone` preserves bytes, format,
sampleRate, numberOfFrames, numberOfChannels and timestamp.
`VideoFrame.clone`, whenever it succeeds, preserves bytes, format, coded
dimensions, timestamp, duration and plane layout, but resets the clone's
visibleRect to the coded rect and its displayWidth/displayHeight to the
coded dimensions, so those equal the source's only when the source carried
the default visible and display geometry. -/
theorem c4_clone_fields :
    (∀ (a a' : AudioData), AudioData.clone a = .ok a' →
      a'.format = a.format ∧ a'.sampleRate = a.sampleRate ∧
      a'.numberOfFrames = a.numberOfFrames ∧
      a'.numberOfChannels = a.numberOfChannels ∧
      a'.timestamp = a.timestamp ∧ a'.data = a.data) ∧
    (∀ (f f' : VideoFrame), VideoFrame.clone f = .ok f' →
      f'.data = f.data ∧ f'.format = f.format ∧
      f'.codedWidth = f.codedWidth ∧ f'.codedHeight = f.codedHeight ∧
      f'.timestamp = f.timestamp ∧ f'.duration = f.duration ∧
      f'.layout = f.layout ∧
      f'.visibleRect =
        { x := 0, y := 0, width := f.codedWidth, height := f.codedHeight } ∧
      f'.displayWidth = f.codedWidth ∧ f'.displayHeight = f.codedHeight) := by
  constructor
  · intro a a' h
    unfold AudioData.clone at h
    cases hd : a.data with
    | none => rw [hd] at h; simp at h
    | some d =>
        rw [hd] at h
        simp only [AudioData.construct] at h
        split at h
        · cases h
        · cases h
          exact ⟨rfl, rfl, rfl, rfl, rfl, rfl⟩
  · intro f f' h
    simp only [VideoFrame.clone, constructBuffer] at h
    split at h
    · cases h
    · split at h
      · cases h
      · split at h
        · cases h
        · split at h
          · cases h
          · cases h
            refine ⟨?_, ?_, ?_, ?_, ?_, ?_, ?_, ?_, ?_, ?_⟩ <;> simp

/-- The concrete VideoFrame that `constructBuffer c4SrcData c4SrcInit`
produces. -/
def c4SrcFrame : VideoFrame :=
  { format := VideoPixelFormat.I420, codedWidth := 4, codedHeight := 4,
    codedRect := { x := 0, y := 0, width := 4, height := 4 },
    visibleRect := { x := 0, y := 0, width := 2, height := 2 },
    displayWidth := 2, displayHeight := 2, timestamp := 7,
    duration := some 10,
    layout := [{ offset := 0, stride := 4 }, { offset := 16, stride := 2 },
               { offset := 20, stride := 2 }],
    data := List.replicate 24 0,
    nonSquarePixels := false, sar_num := 1, sar_den := 1 }

/-- The concrete clone of `c4SrcFrame`. -/
def c4CloneFrame : VideoFrame :=
  { format := VideoPixelFormat.I420, codedWidth := 4, codedHeight := 4,
    codedRect := { x := 0, y := 0, width := 4, height := 4 },
    visibleRect := { x := 0, y := 0, width := 4, height := 4 },
    displayWidth := 4, displayHeight := 4, timestamp := 7,
    duration := some 10,
    layout := [{ offset := 0, stride := 4 }, { offset := 16, stride := 2 },
               { offset := 20, stride := 2 }],
    data := List.replicate 24 0,
    nonSquarePixels := false, sar_num := 1, sar_den := 1 }

/-- Witness for C4 (amended) at the concrete source frame and a concrete
AudioData. -/
theorem c4_clone_fields_witness :
    VideoFrame.clone c4SrcFrame = .ok c4CloneFrame ∧
    c4CloneFrame.data = c4SrcFrame.data ∧
    c4CloneFrame.displayWidth = c4SrcFrame.codedWidth ∧
    AudioData.clone
      { format := AudioSampleFormat.s16, sampleRate := 44100,
        numberOfFrames := 2, numberOfChannels := 1, timestamp := 3,
        data := some [5, 6] } =
      .ok { format := AudioSampleFormat.s16, sampleRate := 44100,
            numberOfFrames := 2, numberOfChannels := 1, timestamp := 3,
            data := some [5, 6] } := by
  have hclone : VideoFrame.clone c4SrcFrame = .ok c4CloneFrame := rfl
  have h := c4_clone_fields.2 c4SrcFrame c4CloneFrame hclone
  have ha := c4_clone_fields.1
    { format := AudioSampleFormat.s16, sampleRate := 44100,
      numberOfFrames := 2, numberOfChannels := 1, timestamp := 3,
      data := some [5, 6] }
    { format := AudioSampleFormat.s16, sampleRate := 44100,
      numberOfFrames := 2, numberOfChannels := 1, timestamp := 3,
      data := some [5, 6] } rfl
  exact ⟨hclone, h.1, h.2.2.2.2.2.2.2.2.1, rfl⟩

/-- Claim C8: across any sequence of `_filter` calls that starts with a
null pts cursor and a nonempty first input, the relabelled outputs form
the chain starting at `frames[0].pts || 0` (missing pts treated as 0): the
first emerging frame carries that recorded cursor value, every subsequent
output carries the previous output's pts plus the previous output's
nb_samples, the pts values are monotonically non-decreasing when sample
counts are non-negative, and the outputs are unchanged by the pts of later
input frames (they are derived from sample counts only). -/
theorem c8_filter_pts (f : FFrame) (fs raw1 : List FFrame)
    (rest : List (List FFrame × List FFrame)) :
    ptsChainB (f.pts.getD 0) (filterRun none ((f :: fs, raw1) :: rest)).1 =
      true ∧
    (∀ g, (filterRun none ((f :: fs, raw1) :: rest)).1.head? = some g →
      g.pts = some (f.pts.getD 0)) ∧
    (∀ i g g',
      (filterRun none ((f :: fs, raw1) :: rest)).1.get? i = some g →
      (filterRun none ((f :: fs, raw1) :: rest)).1.get? (i + 1) = some g' →
      g'.pts = some (g.pts.getD 0 + g.nb_samples)) ∧
    ((∀ g ∈ (filterRun none ((f :: fs, raw1) :: rest)).1, 0 ≤ g.nb_samples) →
      ∀ i g g',
        (filterRun none ((f :: fs, raw1) :: rest)).1.get? i = some g →
        (filterRun none ((f :: fs, raw1) :: rest)).1.get? (i + 1) = some g' →
        g.pts.getD 0 ≤ g'.pts.getD 0) ∧
    (∀ rest2, rest2.map Prod.snd = rest.map Prod.snd →
      (filterRun none ((f :: fs, raw1) :: rest2)).1 =
        (filterRun none ((f :: fs, raw1) :: rest)).1) := by
  have hne := filterRun_none_eq f fs raw1 rest
  have hsome := filterRun_some (f.pts.getD 0) ((f :: fs, raw1) :: rest)
  have hchain : ptsChainB (f.pts.getD 0)
      (filterRun none ((f :: fs, raw1) :: rest)).1 = true := by
    rw [hne]; exact hsome.2
  refine ⟨hchain, ?_, ?_, ?_, ?_⟩
  · intro g hg
    exact ptsChainB_head _ _ hchain g hg
  · intro i g g' hg hg'
    exact ptsChainB_succ _ _ hchain i g g' hg hg'
  · intro hnn i g g' hg hg'
    have hsucc := ptsChainB_succ _ _ hchain i g g' hg hg'
    have hmem : g ∈ (filterRun none ((f :: fs, raw1) :: rest)).1 :=
      List.get?_mem hg
    have hge := hnn g hmem
    rw [hsucc]
    simp only [Option.getD_some]
    omega
  · intro rest2 hr
    have h1 := filterRun_none_eq f fs raw1 rest2
    have h2 := filterRun_some_raws ((f :: fs, raw1) :: rest2) (f.pts.getD 0)
      ((f :: fs, raw1) :: rest) (by simp [hr])
    rw [h1, hne, h2]

/-- Witness for C8 at a concrete run: first input pts 5, filter emits two
frames of 2 and 3 samples; the outputs carry pts 5 and 7 = 5 + 2. -/
theorem c8_filter_pts_witness :
    ptsChainB 5 (filterRun none
      [([({ pts := some 5, nb_samples := 3 } : FFrame)],
        [({ pts := none, nb_samples := 2 } : FFrame),
         ({ pts := some 99, nb_samples := 3 } : FFrame)])]).1 = true ∧
    ({ pts := some 5, nb_samples := 2 } : FFrame).pts.getD 0 ≤
      ({ pts := some 7, nb_samples := 3 } : FFrame).pts.getD 0 := by
  have h := c8_filter_pts { pts := some 5, nb_samples := 3 } []
    [{ pts := none, nb_samples := 2 }, { pts := some 99, nb_samples := 3 }] []
  refine ⟨h.1, ?_⟩
  exact h.2.2.2.1 (by decide) 0 { pts := some 5, nb_samples := 2 }
    { pts := some 7, nb_samples := 3 } (by decide) (by decide)

/-- The default encoder configuration (no flac/opus member). -/
def defaultEncCfg : EncoderConfig := { flac := none, opus := none }

theorem decoderMap_ok_some (decs : List String) (codec : String)
    (hasDesc : Bool) (r : String)
    (h : decoderMap decs codec hasDesc = .ok (some r)) :
    decoderSwitch (stripSub codec) hasDesc = .ok (some r) := by
  simp only [decoderMap] at h
  revert h
  cases decoderSwitch (stripSub codec) hasDesc with
  | error e => intro h; exact h
  | ok o =>
      cases o with
      | none => intro h; exact h
      | some oc =>
          intro h
          by_cases hc : stripSub codec ∈ decs
          · simp [hc] at h
            rw [h]
          · simp [hc] at h

theorem encoderMap_ok_some (encs : List String) (codec : String)
    (cfg : EncoderConfig) (r : String)
    (h : encoderMap encs codec cfg = .ok (some r)) :
    encoderSwitch (splitOnDot codec) cfg = .ok (some r) := by
  simp only [encoderMap] at h
  revert h
  cases encoderSwitch (splitOnDot codec) cfg with
  | error e => intro h; exact h
  | ok o =>
      cases o with
      | none => intro h; exact h
      | some oc =>
          intro h
          by_cases hc : (splitOnDot codec).head?.getD "" ∈ encs
          · simp [hc] at h
            rw [h]
          · simp [hc] at h

theorem decoderSwitch_unrecognized (c : String) (hasDesc : Bool)
    (h1 : c ≠ "flac") (h2 : c ≠ "opus") (h3 : c ≠ "vorbis") (h4 : c ≠ "av01")
    (h5 : c ≠ "vp09") (h6 : c ≠ "vp8") (h7 : c ≠ "mp3") (h8 : c ≠ "mp4a")
    (h9 : c ≠ "ulaw") (h10 : c ≠ "alaw") (h11 : c ≠ "avc1")
    (h12 : c ≠ "avc3") (h13 : c ≠ "hev1") (h14 : c ≠ "hvc1") :
    decoderSwitch c hasDesc = .error .typeError := by
  simp [decoderSwitch, h1, h2, h3, h4, h5, h6, h7, h8, h9, h10, h11, h12,
    h13, h14]

theorem encoderSwitch_unrecognized (parts : List String) (cfg : EncoderConfig)
    (h1 : parts.headD "" ≠ "flac") (h2 : parts.headD "" ≠ "opus")
    (h3 : parts.headD "" ≠ "vorbis") (h4 : parts.headD "" ≠ "av01")
    (h5 : parts.headD "" ≠ "vp09") (h6 : parts.headD "" ≠ "vp8")
    (h7 : parts.headD "" ≠ "mp3") (h8 : parts.headD "" ≠ "mp4a")
    (h9 : parts.headD "" ≠ "ulaw") (h10 : parts.headD "" ≠ "alaw")
    (h11 : parts.headD "" ≠ "avc1") :
    encoderSwitch parts cfg = .error .typeError := by
  simp only [List.headD_eq_head?_getD] at h1 h2 h3 h4 h5 h6 h7 h8 h9 h10 h11
  simp [encoderSwitch, h1, h2, h3, h4, h5, h6, h7, h8, h9, h10, h11]

theorem encoderSwitch_flac_cases (cfg : EncoderConfig) :
    encoderSwitch ["flac"] cfg = .ok none ∨
      encoderSwitch ["flac"] cfg = .ok (some "flac") := by
  obtain ⟨cf, co⟩ := cfg
  cases cf with
  | none => right; rfl
  | some f =>
      have e : encoderSwitch ["flac"] { flac := some f, opus := co } =
          (if f.compressLevel.isSome = true then Except.ok none
           else Except.ok (some "flac")) := rfl
      rw [e]
      split_ifs <;> simp

theorem encoderSwitch_opus_cases (cfg : EncoderConfig) :
    encoderSwitch ["opus"] cfg = .ok none ∨
      encoderSwitch ["opus"] cfg = .ok (some "libopus") := by
  obtain ⟨cf, co⟩ := cfg
  cases co with
  | none => right; rfl
  | some o =>
      have e : encoderSwitch ["opus"] { flac := cf, opus := some o } =
          (if o.complexity.isSome = true then Except.ok none
           else if (match o.packetlossperc with
                    | some p => decide (p < 0 ∨ p > 100)
                    | none => false) = true then Except.ok none
           else if o.usedtx.isSome = true then Except.ok none
           else if (match o.format with
                    | some f => decide (f ≠ "opus")
                    | none => false) = true then Except.ok none
           else Except.ok (some "libopus")) := rfl
      rw [e]
      split_ifs <;> simp

/-- Claim C9: for the backend adapter's decoder/encoder mapping,
recognized-but-unsupported identifiers (mp3, mp4a, ulaw, alaw, avc1, and
for decoding also avc3/hev1/hvc1) yield a "not supported" null result
rather than an exception; any identifier whose first dot-part is outside
the recognized set throws a TypeError; and whenever flac, opus, vorbis,
av01, vp09 or vp8 yields a codec record, its backend name is flac,
libopus, libvorbis, libaom-av1, libvpx-vp9 or libvpx respectively (with
positive instances when the codec is in the loaded support list). -/
theorem c9_codec_identifier_mapping :
    (∀ decs hasDesc,
      decoderMap decs "mp3" hasDesc = .ok none ∧
      decoderMap decs "mp4a" hasDesc = .ok none ∧
      decoderMap decs "ulaw" hasDesc = .ok none ∧
      decoderMap decs "alaw" hasDesc = .ok none ∧
      decoderMap decs "avc1" hasDesc = .ok none ∧
      decoderMap decs "avc3" hasDesc = .ok none ∧
      decoderMap decs "hev1" hasDesc = .ok none ∧
      decoderMap decs "hvc1" hasDesc = .ok none) ∧
    (∀ encs cfg,
      encoderMap encs "mp3" cfg = .ok none ∧
      encoderMap encs "mp4a" cfg = .ok none ∧
      encoderMap encs "ulaw" cfg = .ok none ∧
      encoderMap encs "alaw" cfg = .ok none ∧
      encoderMap encs "avc1" cfg = .ok none) ∧
    (∀ decs codec hasDesc,
      stripSub codec ∉ (["flac", "opus", "vorbis", "av01", "vp09", "vp8",
        "mp3", "mp4a", "ulaw", "alaw", "avc1", "avc3", "hev1", "hvc1"] :
          List String) →
      decoderMap decs codec hasDesc = .error ErrKind.typeError) ∧
    (∀ encs codec cfg,
      (splitOnDot codec).headD "" ∉ (["flac", "opus", "vorbis", "av01",
        "vp09", "vp8", "mp3", "mp4a", "ulaw", "alaw", "avc1"] :
          List String) →
      encoderMap encs codec cfg = .error ErrKind.typeError) ∧
    (∀ decs hasDesc r,
      (decoderMap decs "flac" hasDesc = .ok (some r) → r = "flac") ∧
      (decoderMap decs "opus" hasDesc = .ok (some r) → r = "libopus") ∧
      (decoderMap decs "vorbis" hasDesc = .ok (some r) → r = "libvorbis") ∧
      (decoderMap decs "av01" hasDesc = .ok (some r) → r = "libaom-av1") ∧
      (decoderMap decs "vp09" hasDesc = .ok (some r) → r = "libvpx-vp9") ∧
      (decoderMap decs "vp8" hasDesc = .ok (some r) → r = "libvpx")) ∧
    (∀ encs cfg r,
      (encoderMap encs "flac" cfg = .ok (some r) → r = "flac") ∧
      (encoderMap encs "opus" cfg = .ok (some r) → r = "libopus") ∧
      (encoderMap encs "vorbis" cfg = .ok (some r) → r = "libvorbis") ∧
      (encoderMap encs "av01" cfg = .ok (some r) → r = "libaom-av1") ∧
      (encoderMap encs "vp09" cfg = .ok (some r) → r = "libvpx-vp9") ∧
      (encoderMap encs "vp8" cfg = .ok (some r) → r = "libvpx")) ∧
    (decoderMap ["flac", "opus", "vorbis", "av01", "vp09", "vp8"] "flac" true =
        .ok (some "flac") ∧
      decoderMap ["flac", "opus", "vorbis", "av01", "vp09", "vp8"] "opus"
        false = .ok (some "libopus") ∧
      decoderMap ["flac", "opus", "vorbis", "av01", "vp09", "vp8"] "vorbis"
        true = .ok (some "libvorbis") ∧
      decoderMap ["flac", "opus", "vorbis", "av01", "vp09", "vp8"] "av01"
        false = .ok (some "libaom-av1") ∧
      decoderMap ["flac", "opus", "vorbis", "av01", "vp09", "vp8"] "vp09"
        false = .ok (some "libvpx-vp9") ∧
      decoderMap ["flac", "opus", "vorbis", "av01", "vp09", "vp8"] "vp8"
        false = .ok (some "libvpx")) ∧
    (encoderMap ["flac", "opus", "vorbis", "av01", "vp09", "vp8"] "flac"
        defaultEncCfg = .ok (some "flac") ∧
      encoderMap ["flac", "opus", "vorbis", "av01", "vp09", "vp8"] "opus"
        defaultEncCfg = .ok (some "libopus") ∧
      encoderMap ["flac", "opus", "vorbis", "av01", "vp09", "vp8"] "vorbis"
        defaultEncCfg = .ok (some "libvorbis") ∧
      encoderMap ["flac", "opus", "vorbis", "av01", "vp09", "vp8"] "av01"
        defaultEncCfg = .ok (some "libaom-av1") ∧
      encoderMap ["flac", "opus", "vorbis", "av01", "vp09", "vp8"] "vp09"
        defaultEncCfg = .ok (some "libvpx-vp9") ∧
      encoderMap ["flac", "opus", "vorbis", "av01", "vp09", "vp8"] "vp8"
        defaultEncCfg = .ok (some "libvpx")) := by
  refine ⟨?_, ?_, ?_, ?_, ?_, ?_, ?_, ?_⟩
  · intro decs hasDesc
    exact ⟨rfl, rfl, rfl, rfl, rfl, rfl, rfl, rfl⟩
  · intro encs cfg
    exact ⟨rfl, rfl, rfl, rfl, rfl⟩
  · intro decs codec hasDesc hm
    simp only [List.mem_cons, List.not_mem_nil, or_false, not_or] at hm
    obtain ⟨h1, h2, h3, h4, h5, h6, h7, h8, h9, h10, h11, h12, h13, h14⟩ := hm
    simp only [decoderMap]
    rw [decoderSwitch_unrecognized _ _ h1 h2 h3 h4 h5 h6 h7 h8 h9 h10 h11
      h12 h13 h14]
  · intro encs codec cfg hm
    simp only [List.mem_cons, List.not_mem_nil, or_false, not_or] at hm
    obtain ⟨h1, h2, h3, h4, h5, h6, h7, h8, h9, h10, h11⟩ := hm
    simp only [encoderMap]
    rw [encoderSwitch_unrecognized _ _ h1 h2 h3 h4 h5 h6 h7 h8 h9 h10 h11]
  · intro decs hasDesc r
    refine ⟨?_, ?_, ?_, ?_, ?_, ?_⟩
    · intro h
      have hs := decoderMap_ok_some _ _ _ _ h
      cases hasDesc with
      | false => exact Option.noConfusion (Except.ok.inj hs)
      | true => exact (Option.some.inj (Except.ok.inj hs)).symm
    · intro h
      have hs := decoderMap_ok_some _ _ _ _ h
      cases hasDesc with
      | true => exact Option.noConfusion (Except.ok.inj hs)
      | false => exact (Option.some.inj (Except.ok.inj hs)).symm
    · intro h
      have hs := decoderMap_ok_some _ _ _ _ h
      cases hasDesc with
      | false => exact Option.noConfusion (Except.ok.inj hs)
      | true => exact (Option.some.inj (Except.ok.inj hs)).symm
    · intro h
      have hs := decoderMap_ok_some _ _ _ _ h
      exact (Option.some.inj (Except.ok.inj hs)).symm
    · intro h
      have hs := decoderMap_ok_some _ _ _ _ h
      exact (Option.some.inj (Except.ok.inj hs)).symm
    · intro h
      have hs := decoderMap_ok_some _ _ _ _ h
      exact (Option.some.inj (Except.ok.inj hs)).symm
  · intro encs cfg r
    refine ⟨?_, ?_, ?_, ?_, ?_, ?_⟩
    · intro h
      have hs := encoderMap_ok_some _ _ _ _ h
      rcases encoderSwitch_flac_cases cfg with hc | hc
      · rw [show splitOnDot "flac" = ["flac"] from rfl, hc] at hs
        simp at hs
      · rw [show splitOnDot "flac" = ["flac"] from rfl, hc] at hs
        exact (Option.some.inj (Except.ok.inj hs)).symm
    · intro h
      have hs := encoderMap_ok_some _ _ _ _ h
      rcases encoderSwitch_opus_cases cfg with hc | hc
      · rw [show splitOnDot "opus" = ["opus"] from rfl, hc] at hs
        simp at hs
      · rw [show splitOnDot "opus" = ["opus"] from rfl, hc] at hs
        exact (Option.some.inj (Except.ok.inj hs)).symm
    · intro h
      have hs := encoderMap_ok_some _ _ _ _ h
      exact (Option.some.inj (Except.ok.inj hs)).symm
    · intro h
      have hs := encoderMap_ok_some _ _ _ _ h
      exact (Option.some.inj (Except.ok.inj hs)).symm
    · intro h
      have hs := encoderMap_ok_some _ _ _ _ h
      exact (Option.some.inj (Except.ok.inj hs)).symm
    · intro h
      have hs := encoderMap_ok_some _ _ _ _ h
      exact (Option.some.inj (Except.ok.inj hs)).symm
  · exact ⟨rfl, rfl, rfl, rfl, rfl, rfl⟩
  · exact ⟨rfl, rfl, rfl, rfl, rfl, rfl⟩

/-- Witness for C9: the unrecognized identifier "h264" throws a TypeError
on both maps, and a recognized mapping instance. -/
theorem c9_codec_identifier_mapping_witness :
    decoderMap [] "h264" false = .error ErrKind.typeError ∧
    encoderMap [] "h264" defaultEncCfg = .error ErrKind.typeError ∧
    decoderMap ["flac", "opus", "vorbis", "av01", "vp09", "vp8"] "opus"
      false = .ok (some "libopus") := by
  refine ⟨?_, ?_, ?_⟩
  · exact c9_codec_identifier_mapping.2.2.1 [] "h264" false (by decide)
  · exact c9_codec_identifier_mapping.2.2.2.1 [] "h264" defaultEncCfg
      (by decide)
  · exact c9_codec_identifier_mapping.2.2.2.2.2.2.1.2.1

end WCPoly
